import Mathlib

/-!
# Verification of the Google AI service adapter layer

Shallow embedding of the repository's service adapter (`GoogleAIService`),
its model catalog (`GEMINI_MODELS`), and the React integration hook
(`useGoogleAI`), together with proofs of the specified properties.

JavaScript strings are embedded as Lean `String`; the vendor SDK calls are
modelled by explicit outcome parameters (success text, thrown value, or a
stream of chunks possibly ending in a failure); thrown exceptions are
modelled with `Except`; React state setters are modelled by explicit state
records and call traces.
-/

namespace GoogleAI

/-- JavaScript `Error` values as seen by `catch` blocks: either an `Error`
object carrying a `message`, or some non-`Error` thrown value. -/
inductive ThrownValue where
  | errorObj (message : String)
  | nonError
deriving DecidableEq, Repr

/-- The message extraction used in every `catch` block of the repository:
`err instanceof Error ? err.message : 'Unknown error occurred'`. -/
def errorToMessage : ThrownValue → String
  | .errorObj m => m
  | .nonError => "Unknown error occurred"

/-- Does the character list `pat` occur at the head of `s`? Helper for the
embedding of JavaScript `String.prototype.includes`. -/
def subAt : List Char → List Char → Bool
  | _, [] => true
  | [], _ :: _ => false
  | a :: as, b :: bs => (a == b) && subAt as bs

/-- Does the character list `pat` occur contiguously anywhere in `s`? -/
def hasSub : List Char → List Char → Bool
  | [], pat => subAt [] pat
  | s@(_ :: rest), pat => subAt s pat || hasSub rest pat

/-- Embedding of JavaScript `s.includes(pat)`: `pat` occurs as a contiguous
substring of `s`. -/
def includes (s pat : String) : Bool :=
  hasSub s.data pat.data

/-- `GenerationConfig` record from `GoogleAIConfig.generationConfig`
(src/unnamed/part_002, lines 138-145), restricted to the four fields the
default-derivation rule produces. The decimal literals of the source
(0.9, 0.4, 0.95) are exactly representable, so rationals embed them
faithfully. -/
structure GenerationConfig where
  temperature : Rat
  topK : Nat
  topP : Rat
  maxOutputTokens : Nat
deriving DecidableEq, Repr

/-- `HarmCategory` values used by the adapter's default safety settings. -/
inductive HarmCategory where
  | HARM_CATEGORY_HARASSMENT
  | HARM_CATEGORY_HATE_SPEECH
  | HARM_CATEGORY_SEXUALLY_EXPLICIT
  | HARM_CATEGORY_DANGEROUS_CONTENT
deriving DecidableEq, Repr

/-- `HarmBlockThreshold` values used by the adapter's default safety
settings. -/
inductive HarmBlockThreshold where
  | BLOCK_MEDIUM_AND_ABOVE
deriving DecidableEq, Repr

/-- One `(category, threshold)` pair of a safety policy. -/
structure SafetySetting where
  category : HarmCategory
  threshold : HarmBlockThreshold
deriving DecidableEq, Repr

/-- `GoogleAIService.getDefaultSafetySettings` (src/unnamed/part_002,
lines 188-207). -/
def getDefaultSafetySettings : List SafetySetting :=
  [ ⟨.HARM_CATEGORY_HARASSMENT, .BLOCK_MEDIUM_AND_ABOVE⟩,
    ⟨.HARM_CATEGORY_HATE_SPEECH, .BLOCK_MEDIUM_AND_ABOVE⟩,
    ⟨.HARM_CATEGORY_SEXUALLY_EXPLICIT, .BLOCK_MEDIUM_AND_ABOVE⟩,
    ⟨.HARM_CATEGORY_DANGEROUS_CONTENT, .BLOCK_MEDIUM_AND_ABOVE⟩ ]

/-- `GoogleAIService.getDefaultGenerationConfig` (src/unnamed/part_002,
lines 213-239): base configuration, overridden by substring match on the
bound model name, `gemini-2.0` checked first. -/
def getDefaultGenerationConfig (modelName : String) : GenerationConfig :=
  let config : GenerationConfig :=
    { temperature := 9/10, topK := 1, topP := 95/100, maxOutputTokens := 2048 }
  if includes modelName "gemini-2.0" then
    { config with temperature := 4/10, maxOutputTokens := 8192 }
  else if includes modelName "gemini-1.5" then
    { config with maxOutputTokens := 8192 }
  else
    config

/-- The symbolic keys of the `GEMINI_MODELS` catalog record
(src/unnamed/part_001, lines 10-23). -/
inductive GeminiModelKey where
  | GEMINI_PRO
  | GEMINI_PRO_VISION
  | GEMINI_15_PRO
  | GEMINI_15_FLASH
  | GEMINI_20_FLASH
  | GEMINI_20_FLASH_LITE
  | GEMINI_20_PRO
deriving DecidableEq, Repr, Fintype

/-- The `GEMINI_MODELS` catalog (src/unnamed/part_001, lines 10-23): the
fixed map from symbolic identifiers to vendor model-name strings. -/
def GEMINI_MODELS : GeminiModelKey → String
  | .GEMINI_PRO => "gemini-pro"
  | .GEMINI_PRO_VISION => "gemini-pro-vision"
  | .GEMINI_15_PRO => "gemini-1.5-pro"
  | .GEMINI_15_FLASH => "gemini-1.5-flash"
  | .GEMINI_20_FLASH => "gemini-2.0-flash"
  | .GEMINI_20_FLASH_LITE => "gemini-2.0-flash-lite"
  | .GEMINI_20_PRO => "gemini-2.0-pro"

/-- `DEFAULT_MODEL` (src/unnamed/part_001, line 30). -/
def DEFAULT_MODEL : String := GEMINI_MODELS .GEMINI_PRO

/-- The constructor argument record `GoogleAIConfig` (src/unnamed/part_002,
lines 131-146). A missing (`undefined`) `modelName` and the empty string
behave identically under JavaScript `||`, so both are embedded as `""`. -/
structure GoogleAIConfig where
  apiKey : String
  modelName : String
  safetySettings : Option (List SafetySetting)
  generationConfig : Option GenerationConfig
deriving DecidableEq, Repr

/-- The vendor client handle `new GoogleGenerativeAI(apiKey)`: opaque to
this layer beyond the key it was given. -/
structure GoogleGenerativeAI where
  apiKey : String
deriving DecidableEq, Repr

/-- The vendor model handle produced by `genAI.getGenerativeModel(...)`:
opaque to this layer beyond the arguments it was constructed with. -/
structure GenerativeModel where
  model : String
  safetySettings : List SafetySetting
  generationConfig : GenerationConfig
deriving DecidableEq, Repr

/-- The private fields of a constructed `GoogleAIService` instance
(src/unnamed/part_002, lines 160-162). -/
structure GoogleAIServiceState where
  genAI : GoogleGenerativeAI
  model : GenerativeModel
  modelName : String
deriving DecidableEq, Repr

/-- `GoogleAIService` constructor (src/unnamed/part_002, lines 169-183).
`!config.apiKey` is true exactly for the empty string, so the empty key
throws before any handle is constructed; `config.modelName || 'gemini-pro'`
defaults the empty model name; the caller-supplied safety settings and
generation config, when present, replace the derived defaults. A throw is
embedded as `Except.error` carrying the `Error` message. -/
def GoogleAIService.constructor (config : GoogleAIConfig) :
    Except String GoogleAIServiceState :=
  if config.apiKey = "" then
    .error "Google AI API key is required"
  else
    let modelName := if config.modelName = "" then "gemini-pro" else config.modelName
    .ok
      { genAI := { apiKey := config.apiKey }
        modelName := modelName
        model :=
          { model := modelName
            safetySettings := config.safetySettings.getD getDefaultSafetySettings
            generationConfig :=
              config.generationConfig.getD (getDefaultGenerationConfig modelName) } }

/-- `GoogleAIService.getCurrentModelName` (src/unnamed/part_002,
lines 313-315). -/
def GoogleAIService.getCurrentModelName (s : GoogleAIServiceState) : String :=
  s.modelName

/-- `GoogleAIService.isUsingGemini2Model` (src/unnamed/part_002,
lines 304-306). -/
def GoogleAIService.isUsingGemini2Model (s : GoogleAIServiceState) : Bool :=
  includes s.modelName "gemini-2.0"

/-- Outcome of the awaited vendor call chain
`model.generateContent(prompt)` / `result.response` / `response.text()`:
either it yields a text, or some step throws. -/
inductive VendorOutcome where
  | success (text : String)
  | failure (thrown : ThrownValue)
deriving DecidableEq, Repr

/-- The result record `GenerativeAIResponse` (src/unnamed/part_002,
lines 148-151); an absent `error` field is `none`. -/
structure GenerativeAIResponse where
  text : String
  error : Option String
deriving DecidableEq, Repr

/-- `GoogleAIService.generateContent` (src/unnamed/part_002, lines 247-260),
parametric in the vendor outcome: on success it returns `{text}`; any
thrown error is caught and converted to `{text: "", error: message}`. The
return type being `GenerativeAIResponse` (not `Except`) embeds that the
method never rethrows. -/
def GoogleAIService.generateContent (outcome : VendorOutcome) :
    GenerativeAIResponse :=
  match outcome with
  | .success text => { text := text, error := none }
  | .failure e => { text := "", error := some (errorToMessage e) }

/-- A vendor stream as observed by the `for await` loop
(src/unnamed/part_002, lines 276-279): the chunk texts delivered in order,
then either normal exhaustion (`failure = none`) or a thrown failure after
the delivered prefix (`failure = some e`). A throw of the initial
`generateContentStream` call itself is the case `chunks = []`,
`failure = some e`. -/
structure VendorStream where
  chunks : List String
  failure : Option ThrownValue
deriving DecidableEq, Repr

/-- The `for await (const chunk of result.stream)` loop of
`generateContentStream`: consumes the remaining chunks, appending each
`onChunk` argument to the call trace `calls`, then finishes with the
stream's terminal event. -/
def streamLoop (calls : List String) :
    List String → Option ThrownValue → List String × Except ThrownValue Unit
  | [], none => (calls, .ok ())
  | [], some e => (calls, .error e)
  | c :: rest, f => streamLoop (calls ++ [c]) rest f

/-- `GoogleAIService.generateContentStream` (src/unnamed/part_002,
lines 269-284), parametric in the vendor stream. Returns the ordered list
of texts passed to `onChunk` together with the method's own outcome: the
`catch` block rethrows (`throw error`), so a stream failure propagates as
`Except.error` after the delivered prefix has been forwarded. -/
def GoogleAIService.generateContentStream (stream : VendorStream) :
    List String × Except ThrownValue Unit :=
  streamLoop [] stream.chunks stream.failure

/-- One conversational turn of a chat history, opaque to this layer. -/
structure ChatTurn where
  role : String
  text : String
deriving DecidableEq, Repr

/-- The vendor chat-session object as constructed by `model.startChat`:
opaque beyond the arguments it was created with and the model handle it
came from. -/
structure ChatSession where
  model : String
  history : List ChatTurn
  generationConfig : GenerationConfig
deriving DecidableEq, Repr

/-- `GoogleAIService.startChat` (src/unnamed/part_002, lines 292-297):
creates a session on the bound model handle, seeded with `history`
(`[]` by default at the call site) and with
`generationConfig: this.getDefaultGenerationConfig()` — the config
re-derived from the model name, not the one stored in the model handle. -/
def GoogleAIService.startChat (s : GoogleAIServiceState)
    (history : List ChatTurn) : ChatSession :=
  { model := s.model.model
    history := history
    generationConfig := getDefaultGenerationConfig s.modelName }

/-- JavaScript `a || b` on an optional string: `undefined` and `""` are
both falsy. Used for `props?.modelName || GEMINI_MODELS.GEMINI_PRO`
(src/unnamed/part_002, line 45). -/
def jsOrString (a : Option String) (b : String) : String :=
  match a with
  | none => b
  | some s => if s = "" then b else s

/-- The `useGoogleAI` hook's React state visible to this verification:
`isLoading` and `error` (src/unnamed/part_002, lines 28-30). -/
structure HookState where
  isLoading : Bool
  error : Option String
deriving DecidableEq, Repr

/-- The `initializeService` effect body (src/unnamed/part_002, lines 33-57),
acting on the module-level shared variable `googleAIService`
(line 6). `shared` is the variable's value before the invocation; `apiKey`
is the value `await getApiKey()` resolves to; `modelNameProp` is
`props?.modelName`. Returns the variable's value afterwards together with
the body's outcome (`Except.error` = the caught initialization failure).
When an instance already exists the body only calls `setIsReady(true)` and
leaves the shared variable untouched. -/
def initializeService (shared : Option GoogleAIServiceState)
    (apiKey : String) (modelNameProp : Option String) :
    Option GoogleAIServiceState × Except String Unit :=
  match shared with
  | some s => (some s, .ok ())
  | none =>
    if apiKey = "" then
      (none, .error "Google AI API key is not configured")
    else
      match GoogleAIService.constructor
          { apiKey := apiKey
            modelName := jsOrString modelNameProp (GEMINI_MODELS .GEMINI_PRO)
            safetySettings := none
            generationConfig := none } with
      | .ok s => (some s, .ok ())
      | .error e => (none, .error e)

/-- JavaScript truthiness of the optional `error` field of a
`GenerativeAIResponse`: an absent field and the empty string are both
falsy. -/
def jsTruthy : Option String → Bool
  | none => false
  | some s => !(s == "")

/-- `useGoogleAI.generateResponse` (src/unnamed/part_002, lines 60-84).
`shared` is the module-level service variable; `call` is the outcome of
`await googleAIService.generateContent(prompt)` (`Except.error` = that
await threw). Returns the final hook state, the ordered trace of
`setIsLoading` calls, and the promise outcome (`Except.error` = the
function threw/rejected, `.ok t` = it resolved with `t`). The
uninitialized guard throws before any state update; otherwise
`setIsLoading(true)`/`setError(null)` run first and the `finally` block
runs `setIsLoading(false)` on every path. The source's
`if (response.error)` is a JavaScript truthiness test, so a present but
empty `error` string takes the non-error branch. -/
def generateResponse (shared : Option GoogleAIServiceState)
    (call : Except ThrownValue GenerativeAIResponse) (st : HookState) :
    HookState × List Bool × Except String String :=
  match shared with
  | none => (st, [], .error "Google AI service is not initialized")
  | some _ =>
    let st1 : HookState := { isLoading := true, error := none }
    match call with
    | .ok response =>
      if jsTruthy response.error then
        ({ st1 with error := response.error, isLoading := false },
         [true, false], .ok "")
      else
        ({ st1 with isLoading := false }, [true, false],
         .ok response.text)
    | .error err =>
      ({ st1 with error := some (errorToMessage err), isLoading := false },
       [true, false], .ok "")

/-- `useGoogleAI.generateResponseStream` (src/unnamed/part_002,
lines 87-106). `stream` parametrizes the underlying
`generateContentStream` call. Returns the final hook state, the
`setIsLoading` trace, the ordered `onChunk` call trace, and the promise
outcome; the `catch` block converts a propagated stream failure into
`setError` (no rethrow), and the `finally` block resets `isLoading` on
every path past the uninitialized guard. -/
def generateResponseStream (shared : Option GoogleAIServiceState)
    (stream : VendorStream) (st : HookState) :
    HookState × List Bool × List String × Except String Unit :=
  match shared with
  | none => (st, [], [], .error "Google AI service is not initialized")
  | some _ =>
    let st1 : HookState := { isLoading := true, error := none }
    match GoogleAIService.generateContentStream stream with
    | (calls, .ok ()) =>
      ({ st1 with isLoading := false }, [true, false], calls, .ok ())
    | (calls, .error e) =>
      ({ st1 with error := some (errorToMessage e), isLoading := false },
       [true, false], calls, .ok ())

/-! ## Shared helper lemmas -/

/-- Unfolding lemma for the `for await` loop: it forwards every remaining
chunk to `onChunk` in order after the calls already made, then finishes
with the stream's terminal event. -/
theorem streamLoop_spec (chunks : List String) (f : Option ThrownValue)
    (calls : List String) :
    streamLoop calls chunks f =
      (calls ++ chunks,
       match f with
       | none => Except.ok ()
       | some e => Except.error e) := by
  induction chunks generalizing calls with
  | nil => cases f <;> simp [streamLoop]
  | cons c rest ih => simp [streamLoop, ih]

/-- The hook passes `props?.modelName || 'gemini-pro'` to the constructor,
which re-applies the same `|| 'gemini-pro'` default; the second application
is the identity because the first never yields the empty string. -/
theorem modelName_default_idem (m : Option String) :
    (if jsOrString m (GEMINI_MODELS .GEMINI_PRO) = "" then "gemini-pro"
     else jsOrString m (GEMINI_MODELS .GEMINI_PRO))
      = jsOrString m (GEMINI_MODELS .GEMINI_PRO) := by
  cases m with
  | none => simp [jsOrString, GEMINI_MODELS]
  | some v =>
    by_cases hv : v = "" <;> simp [jsOrString, GEMINI_MODELS, hv]

/-! ## Claim theorems -/

/-- Claim C1: for every model name string, the derived default
`GenerationConfig` is `{temperature 0.4, topK 1, topP 0.95,
maxOutputTokens 8192}` when the name contains `"gemini-2.0"` (regardless
of any other match: first-match-wins), `{temperature 0.9, topK 1,
topP 0.95, maxOutputTokens 8192}` when it contains `"gemini-1.5"` but not
`"gemini-2.0"`, and the base `{temperature 0.9, topK 1, topP 0.95,
maxOutputTokens 2048}` otherwise; the three cases are exhaustive and
mutually exclusive. -/
theorem defaultGenerationConfig_family_rule (m : String) :
    (includes m "gemini-2.0" = true →
      getDefaultGenerationConfig m =
        { temperature := 4/10, topK := 1, topP := 95/100,
          maxOutputTokens := 8192 }) ∧
    (includes m "gemini-2.0" = false → includes m "gemini-1.5" = true →
      getDefaultGenerationConfig m =
        { temperature := 9/10, topK := 1, topP := 95/100,
          maxOutputTokens := 8192 }) ∧
    (includes m "gemini-2.0" = false → includes m "gemini-1.5" = false →
      getDefaultGenerationConfig m =
        { temperature := 9/10, topK := 1, topP := 95/100,
          maxOutputTokens := 2048 }) := by
  refine ⟨fun h2 => ?_, fun h2 h15 => ?_, fun h2 h15 => ?_⟩
  · simp [getDefaultGenerationConfig, h2]
  · simp [getDefaultGenerationConfig, h2, h15]
  · simp [getDefaultGenerationConfig, h2, h15]

/-- Witness for C1: the three branches of the rule evaluated at one
concrete catalog member each. -/
theorem defaultGenerationConfig_family_rule_witness :
    getDefaultGenerationConfig "gemini-2.0-flash" =
      { temperature := 4/10, topK := 1, topP := 95/100,
        maxOutputTokens := 8192 } ∧
    getDefaultGenerationConfig "gemini-1.5-pro" =
      { temperature := 9/10, topK := 1, topP := 95/100,
        maxOutputTokens := 8192 } ∧
    getDefaultGenerationConfig "gemini-pro" =
      { temperature := 9/10, topK := 1, topP := 95/100,
        maxOutputTokens := 2048 } :=
  ⟨(defaultGenerationConfig_family_rule "gemini-2.0-flash").1 (by decide),
   (defaultGenerationConfig_family_rule "gemini-1.5-pro").2.1 (by decide)
     (by decide),
   (defaultGenerationConfig_family_rule "gemini-pro").2.2 (by decide)
     (by decide)⟩

/-- Claim C2: constructing a `GoogleAIService` with an empty `apiKey`
always throws the `ConfigurationError` message, and in that case no state
(vendor client handle or model handle) is ever produced. -/
theorem constructor_empty_apiKey_fails (config : GoogleAIConfig)
    (h : config.apiKey = "") :
    GoogleAIService.constructor config =
      .error "Google AI API key is required" ∧
    ∀ s, GoogleAIService.constructor config ≠ .ok s := by
  refine ⟨?_, ?_⟩ <;> simp [GoogleAIService.constructor, h]

/-- Witness for C2: the empty key fails at a concrete configuration. -/
theorem constructor_empty_apiKey_fails_witness :
    GoogleAIService.constructor
        { apiKey := "", modelName := "gemini-pro",
          safetySettings := none, generationConfig := none } =
      .error "Google AI API key is required" :=
  (constructor_empty_apiKey_fails
    { apiKey := "", modelName := "gemini-pro",
      safetySettings := none, generationConfig := none } rfl).1

/-- Claim C3: `generateContent` is a total function into
`GenerativeAIResponse` (it never rethrows a vendor failure): on vendor
success with text `t` it returns `{text := t}` with no error field, and on
any vendor failure it returns `{text := "", error := message}`. -/
theorem generateContent_total_result :
    (∀ t, GoogleAIService.generateContent (.success t) =
      { text := t, error := none }) ∧
    ∀ e, GoogleAIService.generateContent (.failure e) =
      { text := "", error := some (errorToMessage e) } :=
  ⟨fun _ => rfl, fun _ => rfl⟩

/-- Claim C7: every identifier of the fixed `GEMINI_MODELS` catalog maps to
a non-empty vendor model string, and distinct identifiers map to distinct
strings. -/
theorem GEMINI_MODELS_nonempty_injective :
    (∀ k, GEMINI_MODELS k ≠ "") ∧
    ∀ a b, GEMINI_MODELS a = GEMINI_MODELS b → a = b := by
  decide

/-- Witness for C7: the injectivity direction applied at a concrete pair of
equal catalog strings. -/
theorem GEMINI_MODELS_nonempty_injective_witness :
    GeminiModelKey.GEMINI_15_PRO = GeminiModelKey.GEMINI_15_PRO :=
  GEMINI_MODELS_nonempty_injective.2 .GEMINI_15_PRO .GEMINI_15_PRO rfl

/-- Claim C4: for every vendor stream, `generateContentStream` invokes
`onChunk` exactly once per delivered chunk, in arrival order; when the
stream is exhausted normally it resolves, and when the stream fails after
delivering a prefix the caller observes exactly the calls for that prefix
followed by the propagated failure. -/
theorem generateContentStream_chunk_trace (stream : VendorStream) :
    (GoogleAIService.generateContentStream stream).1 = stream.chunks ∧
    (stream.failure = none →
      (GoogleAIService.generateContentStream stream).2 = .ok ()) ∧
    ∀ e, stream.failure = some e →
      (GoogleAIService.generateContentStream stream).2 = .error e := by
  obtain ⟨chunks, f⟩ := stream
  refine ⟨?_, fun hf => ?_, fun e hf => ?_⟩ <;>
    simp_all [GoogleAIService.generateContentStream, streamLoop_spec]

/-- Witness for C4: the spec's own example — chunks `["A","B","C"]` with
normal exhaustion, and chunk `["A"]` followed by a failure. -/
theorem generateContentStream_chunk_trace_witness :
    (GoogleAIService.generateContentStream ⟨["A", "B", "C"], none⟩).1
      = ["A", "B", "C"] ∧
    (GoogleAIService.generateContentStream ⟨["A", "B", "C"], none⟩).2
      = .ok () ∧
    (GoogleAIService.generateContentStream
        ⟨["A"], some (.errorObj "network failure")⟩).1 = ["A"] ∧
    (GoogleAIService.generateContentStream
        ⟨["A"], some (.errorObj "network failure")⟩).2
      = .error (.errorObj "network failure") :=
  ⟨(generateContentStream_chunk_trace ⟨["A", "B", "C"], none⟩).1,
   (generateContentStream_chunk_trace ⟨["A", "B", "C"], none⟩).2.1 rfl,
   (generateContentStream_chunk_trace
     ⟨["A"], some (.errorObj "network failure")⟩).1,
   (generateContentStream_chunk_trace
     ⟨["A"], some (.errorObj "network failure")⟩).2.2 _ rfl⟩

/-- An adapter configuration carrying a caller-supplied generation config
whose `maxOutputTokens` differs from every value the default rule can
produce. -/
def customConfig : GoogleAIConfig :=
  { apiKey := "test-key"
    modelName := "gemini-pro"
    safetySettings := none
    generationConfig :=
      some { temperature := 9/10, topK := 1, topP := 95/100,
             maxOutputTokens := 100 } }

/-- The adapter state the constructor produces from `customConfig`. -/
def customState : GoogleAIServiceState :=
  { genAI := { apiKey := "test-key" }
    modelName := "gemini-pro"
    model :=
      { model := "gemini-pro"
        safetySettings := getDefaultSafetySettings
        generationConfig :=
          { temperature := 9/10, topK := 1, topP := 95/100,
            maxOutputTokens := 100 } } }

/-- Counterexample to C5: for an adapter constructed with a caller-supplied
`generationConfig` (here `maxOutputTokens := 100`), the session returned by
`startChat` is bound to the re-derived default config, not to the
adapter's construction-time config stored in its model handle. -/
theorem startChat_config_counterexample :
    GoogleAIService.constructor customConfig = .ok customState ∧
    (GoogleAIService.startChat customState []).generationConfig
      ≠ customState.model.generationConfig :=
  ⟨rfl, fun h =>
    absurd (congrArg GenerationConfig.maxOutputTokens h) (by decide)⟩

/-- Claim C5 (amended): `startChat` creates a session seeded with the given
history and bound to the GenerationConfig re-derived from the adapter's
model name by the default rule; this coincides with the adapter's
construction-time config exactly when no caller-supplied
`generationConfig` was given at construction. -/
theorem startChat_session_spec (cfg : GoogleAIConfig)
    (s : GoogleAIServiceState)
    (h : GoogleAIService.constructor cfg = .ok s) (history : List ChatTurn) :
    (GoogleAIService.startChat s history).history = history ∧
    (GoogleAIService.startChat s history).model = s.model.model ∧
    (GoogleAIService.startChat s history).generationConfig
      = getDefaultGenerationConfig s.modelName ∧
    (cfg.generationConfig = none →
      (GoogleAIService.startChat s history).generationConfig
        = s.model.generationConfig) := by
  refine ⟨rfl, rfl, rfl, fun hnone => ?_⟩
  unfold GoogleAIService.constructor at h
  split at h
  · exact absurd h (by simp)
  · rw [Except.ok.injEq] at h
    subst h
    simp [GoogleAIService.startChat, hnone]

/-- The hook-style configuration with no caller-supplied generation
config, used to witness the amended C5. -/
def plainConfig : GoogleAIConfig :=
  { apiKey := "test-key"
    modelName := "gemini-1.5-flash"
    safetySettings := none
    generationConfig := none }

/-- The adapter state the constructor produces from `plainConfig`. -/
def plainState : GoogleAIServiceState :=
  { genAI := { apiKey := "test-key" }
    modelName := "gemini-1.5-flash"
    model :=
      { model := "gemini-1.5-flash"
        safetySettings := getDefaultSafetySettings
        generationConfig := getDefaultGenerationConfig "gemini-1.5-flash" } }

/-- Witness for the amended C5: a concrete adapter without a
caller-supplied config, with a one-turn history. -/
theorem startChat_session_spec_witness :
    (GoogleAIService.startChat plainState [⟨"user", "hi"⟩]).history
      = [⟨"user", "hi"⟩] ∧
    (GoogleAIService.startChat plainState [⟨"user", "hi"⟩]).model
      = plainState.model.model ∧
    (GoogleAIService.startChat plainState [⟨"user", "hi"⟩]).generationConfig
      = getDefaultGenerationConfig plainState.modelName ∧
    (GoogleAIService.startChat plainState [⟨"user", "hi"⟩]).generationConfig
      = plainState.model.generationConfig :=
  ⟨(startChat_session_spec plainConfig plainState rfl [⟨"user", "hi"⟩]).1,
   (startChat_session_spec plainConfig plainState rfl [⟨"user", "hi"⟩]).2.1,
   (startChat_session_spec plainConfig plainState rfl [⟨"user", "hi"⟩]).2.2.1,
   (startChat_session_spec plainConfig plainState rfl
     [⟨"user", "hi"⟩]).2.2.2 rfl⟩

/-- Claim C6: once a first hook initialization has created the shared
service instance, a second initialization — with any API key and any
requested model name — leaves the shared variable bound to the very same
instance and succeeds without constructing anything; moreover the retained
instance's model binding is the one the first invocation requested
(`props?.modelName || 'gemini-pro'`). -/
theorem sharedService_never_replaced (k1 k2 : String)
    (m1 m2 : Option String) (s : GoogleAIServiceState)
    (h : (initializeService none k1 m1).1 = some s) :
    initializeService (initializeService none k1 m1).1 k2 m2
      = (some s, .ok ()) ∧
    GoogleAIService.getCurrentModelName s
      = jsOrString m1 (GEMINI_MODELS .GEMINI_PRO) := by
  refine ⟨by rw [h]; rfl, ?_⟩
  unfold initializeService GoogleAIService.constructor at h
  by_cases hk : k1 = ""
  · simp [hk] at h
  · simp [hk] at h
    rw [← h]
    simpa [GoogleAIService.getCurrentModelName] using
      modelName_default_idem m1

/-- The shared state created by a first hook invocation requesting
`gemini-1.5-pro` with a non-empty key. -/
def firstMountState : GoogleAIServiceState :=
  { genAI := { apiKey := "key-1" }
    modelName := "gemini-1.5-pro"
    model :=
      { model := "gemini-1.5-pro"
        safetySettings := getDefaultSafetySettings
        generationConfig := getDefaultGenerationConfig "gemini-1.5-pro" } }

/-- Witness for C6: a first mount requesting `gemini-1.5-pro` followed by
an invocation requesting `gemini-2.0-pro` keeps the first binding. -/
theorem sharedService_never_replaced_witness :
    initializeService
        (initializeService none "key-1" (some "gemini-1.5-pro")).1
        "key-2" (some "gemini-2.0-pro")
      = (some firstMountState, .ok ()) ∧
    GoogleAIService.getCurrentModelName firstMountState
      = jsOrString (some "gemini-1.5-pro") (GEMINI_MODELS .GEMINI_PRO) :=
  sharedService_never_replaced "key-1" "key-2" (some "gemini-1.5-pro")
    (some "gemini-2.0-pro") firstMountState rfl

/-- Counterexample to C8: a call to `generateResponse` made while no shared
service instance exists throws at the guard; `setIsLoading` is never
invoked (empty trace), so `isLoading` is not set to true for that call,
contrary to the claim's quantification over every call. -/
theorem isLoading_uninitialized_counterexample :
    (generateResponse none (.ok { text := "hi", error := none })
        { isLoading := false, error := none }).2.1 = [] ∧
    (generateResponse none (.ok { text := "hi", error := none })
        { isLoading := false, error := none }).2.2
      = .error "Google AI service is not initialized" ∧
    (generateResponseStream none ⟨["A"], none⟩
        { isLoading := false, error := none }).2.1 = [] :=
  ⟨rfl, rfl, rfl⟩

/-- Claim C8 (amended): for every call to `generateResponse` or
`generateResponseStream` made while the shared service instance exists,
`setIsLoading` is called exactly twice — `true` on entry and `false` in
the `finally` block — on every path, whatever the outcome, and the final
hook state has `isLoading = false`; a call made before the instance exists
throws at the guard without ever touching `isLoading`. -/
theorem isLoading_reset_on_every_path (s : GoogleAIServiceState)
    (call : Except ThrownValue GenerativeAIResponse)
    (stream : VendorStream) (st st' : HookState) :
    (generateResponse (some s) call st).2.1 = [true, false] ∧
    (generateResponse (some s) call st).1.isLoading = false ∧
    (generateResponseStream (some s) stream st').2.1 = [true, false] ∧
    (generateResponseStream (some s) stream st').1.isLoading = false := by
  obtain ⟨chunks, f⟩ := stream
  rcases call with e | r
  · cases f <;>
      simp [generateResponse, generateResponseStream,
        GoogleAIService.generateContentStream, streamLoop_spec]
  · obtain ⟨t, er⟩ := r
    cases f <;>
      simp only [generateResponse, generateResponseStream,
        GoogleAIService.generateContentStream, streamLoop_spec] <;>
      split <;> simp

/-- Claim C9: constructing the adapter with a missing/empty `modelName`
(and a non-empty key) succeeds, silently binding `"gemini-pro"`;
`getCurrentModelName` then returns `"gemini-pro"`, and the generation
config bound to the model handle is the base default configuration. -/
theorem constructor_defaults_model_name (apiKey : String) (h : apiKey ≠ "")
    (ss : Option (List SafetySetting)) :
    GoogleAIService.constructor
        { apiKey := apiKey, modelName := "",
          safetySettings := ss, generationConfig := none }
      = .ok
          { genAI := { apiKey := apiKey }
            modelName := "gemini-pro"
            model :=
              { model := "gemini-pro"
                safetySettings := ss.getD getDefaultSafetySettings
                generationConfig :=
                  { temperature := 9/10, topK := 1, topP := 95/100,
                    maxOutputTokens := 2048 } } } ∧
    GoogleAIService.getCurrentModelName
        { genAI := { apiKey := apiKey }
          modelName := "gemini-pro"
          model :=
            { model := "gemini-pro"
              safetySettings := ss.getD getDefaultSafetySettings
              generationConfig :=
                { temperature := 9/10, topK := 1, topP := 95/100,
                  maxOutputTokens := 2048 } } }
      = "gemini-pro" := by
  refine ⟨?_, rfl⟩
  simp [GoogleAIService.constructor, h]
  rfl

/-- Witness for C9: the fallback key constant of the configuration file
with an empty model name. -/
theorem constructor_defaults_model_name_witness :
    GoogleAIService.constructor
        { apiKey := "YOUR_API_KEY", modelName := "",
          safetySettings := none, generationConfig := none }
      = .ok
          { genAI := { apiKey := "YOUR_API_KEY" }
            modelName := "gemini-pro"
            model :=
              { model := "gemini-pro"
                safetySettings := getDefaultSafetySettings
                generationConfig :=
                  { temperature := 9/10, topK := 1, topP := 95/100,
                    maxOutputTokens := 2048 } } } :=
  (constructor_defaults_model_name "YOUR_API_KEY" (by simp) none).1

/-- Counterexample to C10: a vendor failure whose `Error` message is empty
is converted by `generateContent` into the error result
`{text := "", error := some ""}`; on that result the hook's
`if (response.error)` is falsy, so `generateResponse` takes the success
branch — it resolves with the response text and leaves the hook's `error`
state `none`, recording no message, contrary to the claim. -/
theorem generateResponse_empty_message_counterexample :
    GoogleAIService.generateContent (.failure (.errorObj "")) =
      { text := "", error := some "" } ∧
    (generateResponse (some plainState)
        (.ok { text := "", error := some "" })
        { isLoading := false, error := none }).2.2 = .ok "" ∧
    (generateResponse (some plainState)
        (.ok { text := "", error := some "" })
        { isLoading := false, error := none }).1.error = none :=
  ⟨rfl, rfl, rfl⟩

/-- Claim C10 (amended): once the shared service instance exists, the
hook's `generateResponse` always resolves (never rejects): with the
generated text when the vendor call succeeds without an error field; with
the empty string — recording the message in the hook's `error` state —
when the vendor reports an error result with a non-empty message or the
awaited call throws; and, because `if (response.error)` is a JavaScript
truthiness test, an error result with an empty message takes the success
branch, resolving with the response's text and recording no error. -/
theorem generateResponse_resolves_spec (s : GoogleAIServiceState)
    (call : Except ThrownValue GenerativeAIResponse) (st : HookState) :
    (∃ t, (generateResponse (some s) call st).2.2 = .ok t) ∧
    (∀ t, call = .ok { text := t, error := none } →
      (generateResponse (some s) call st).2.2 = .ok t ∧
      (generateResponse (some s) call st).1.error = none) ∧
    (∀ t e, call = .ok { text := t, error := some e } → e ≠ "" →
      (generateResponse (some s) call st).2.2 = .ok "" ∧
      (generateResponse (some s) call st).1.error = some e) ∧
    (∀ t, call = .ok { text := t, error := some "" } →
      (generateResponse (some s) call st).2.2 = .ok t ∧
      (generateResponse (some s) call st).1.error = none) ∧
    ∀ ex, call = .error ex →
      (generateResponse (some s) call st).2.2 = .ok "" ∧
      (generateResponse (some s) call st).1.error
        = some (errorToMessage ex) := by
  refine ⟨?_, fun t hc => ?_, fun t e hc he => ?_, fun t hc => ?_,
    fun ex hc => ?_⟩
  · rcases call with ex | ⟨t, e⟩
    · exact ⟨_, rfl⟩
    · rcases e with _ | e
      · exact ⟨_, rfl⟩
      · by_cases he : e = ""
        · subst he; exact ⟨_, rfl⟩
        · exact ⟨"", by simp [generateResponse, jsTruthy, he]⟩
  · subst hc; exact ⟨rfl, rfl⟩
  · subst hc
    constructor <;> simp [generateResponse, jsTruthy, he]
  · subst hc; exact ⟨rfl, rfl⟩
  · subst hc; exact ⟨rfl, rfl⟩

/-- Witness for the amended C10: the four outcomes at concrete inputs — a
successful text, a vendor error result with a non-empty message, a vendor
error result with an empty message, and a thrown `Error`. -/
theorem generateResponse_resolves_spec_witness :
    (generateResponse (some plainState)
        (.ok { text := "hello", error := none })
        { isLoading := false, error := none }).2.2 = .ok "hello" ∧
    (generateResponse (some plainState)
        (.ok { text := "", error := some "quota exceeded" })
        { isLoading := false, error := none }).1.error
      = some "quota exceeded" ∧
    (generateResponse (some plainState)
        (.ok { text := "", error := some "" })
        { isLoading := false, error := none }).1.error = none ∧
    (generateResponse (some plainState)
        (.error (.errorObj "network down"))
        { isLoading := false, error := none }).1.error
      = some "network down" :=
  ⟨((generateResponse_resolves_spec plainState
      (.ok { text := "hello", error := none })
      { isLoading := false, error := none }).2.1 "hello" rfl).1,
   ((generateResponse_resolves_spec plainState
      (.ok { text := "", error := some "quota exceeded" })
      { isLoading := false, error := none }).2.2.1 ""
      "quota exceeded" rfl (by decide)).2,
   ((generateResponse_resolves_spec plainState
      (.ok { text := "", error := some "" })
      { isLoading := false, error := none }).2.2.2.1 "" rfl).2,
   ((generateResponse_resolves_spec plainState
      (.error (.errorObj "network down"))
      { isLoading := false, error := none }).2.2.2.2
      (.errorObj "network down") rfl).2⟩

end GoogleAI
